import Mathlib

/-!
Verification of the Option/Result core of the `rustype` library.

The repository contains several historical implementations of the same two
types; the claims cite specific files and lines, and this development embeds
each cited implementation separately:

* `COption` / `CResult` — the class-based implementations in
  `src/Option/Option.ts` (+ `src/Option/values.ts`) and `src/Result/Result.ts`:
  an `Option` instance is an object with a single `data` field (`null` encodes
  `None`); a `Result` instance has a variant tag (`type : "ok" | "err"`) and a
  payload.  Host values are embedded in the dynamically-typed domain `JSVal`;
  wrapper instances nest through the `voption` / `vresult` constructors, which
  is what the source's `instanceof` checks dispatch on.  Methods that can
  `throw` return `Except JSErr _`.
* `BOption` — the `_Some` / `_None` class pair at the top of
  `src/Option/option.ts`.
* `FOption` / `FResult` — the closure-based `Option` (bottom of
  `src/Option/option.ts`) and the `Sum`-based `Result` (first implementation in
  `src/unnamed/part_011`).  Both are Church-encoded two-variant sums whose only
  primitive is the eliminator (`maybe` / `either`); they are embedded as their
  initial algebra (a plain two-constructor inductive) with the eliminator as a
  derived function, and every combinator is defined through the eliminator
  exactly as in the source.  These implementations perform no dynamic checks
  and are parametric, so they are embedded polymorphically.

`clone-deep` produces a structurally equal copy of its argument; equality in
the source's test suite (`toEqual`) is structural, so in the value semantics of
this embedding deep-copying is the identity (`cloneD`).  The one place where
copying is *observable* — the defensive-copy contract, which is about aliasing
of mutable host objects — is modelled separately at the end with an explicit
store of mutable cells and addresses (`Store`, `HRef`).
-/

namespace Rustype

/-- Dynamically-typed host values.  `voption d` is a class-based `Option`
instance whose `data` field holds `d`; `vresult t c` is a class-based `Result`
instance with variant tag `t` (`true` = `"ok"`) and payload `c`. -/
inductive JSVal : Type where
  | vnull
  | vundef
  | vbool (b : Bool)
  | vnum (n : Int)
  | vstr (s : String)
  | voption (data : JSVal)
  | vresult (tag : Bool) (content : JSVal)
deriving DecidableEq, Repr

/-- JavaScript truthiness, as used by `Boolean(x)` in `Option.ts`:
`null`, `undefined`, `false`, `0` and `""` are falsy; objects are truthy. -/
def truthy : JSVal → Bool
  | .vnull => false
  | .vundef => false
  | .vbool b => b
  | .vnum n => n != 0
  | .vstr s => s != ""
  | .voption _ => true
  | .vresult _ _ => true

/-- Host-level errors thrown by the library.  `typeError` models
`throw TypeError(msg)`, `jsError` models `throw new Error(msg)`, and
`jsErrorWith` models `unwrapFailed`, i.e.
`throw new Error(msg + ": " + JSON.stringify(payload))`. -/
inductive JSErr : Type where
  | typeError (msg : String)
  | jsError (msg : String)
  | jsErrorWith (msg : String) (payload : JSVal)
deriving DecidableEq, Repr

/-- Class-based `Option` instance (`src/Option/Option.ts`): a single private
`data` field; `None` is encoded by storing the `null` sentinel. -/
structure COption where
  data : JSVal
deriving DecidableEq, Repr

/-- Class-based `Result` instance (`src/Result/Result.ts`): a variant tag
(source field `type`, `true` = `"ok"`) and the payload stored in `data` or
`error` — exactly one of the two optional fields is ever set, so they are
modelled as one `content` field. -/
structure CResult where
  tag : Bool
  content : JSVal
deriving DecidableEq, Repr

namespace COption

/-- Embed an `Option` instance back into the value domain. -/
def toVal (o : COption) : JSVal := .voption o.data

/-- `Some` from `src/Option/values.ts`: throws `TypeError("Error.")` when the
argument is `undefined` or `null`, otherwise wraps it. -/
def Some (x : JSVal) : Except JSErr COption :=
  match x with
  | .vundef => .error (.typeError "Error.")
  | .vnull => .error (.typeError "Error.")
  | x => .ok ⟨x⟩

/-- `None` from `src/Option/values.ts`: `new Option(null)`. -/
def None : COption := ⟨.vnull⟩

/-- `Option.ts` line 29: `isSome()` returns `Boolean(this.data)`. -/
def isSome (o : COption) : Bool := truthy o.data

/-- `Option.ts` line 34: `isNone()` returns `!this.isSome()`. -/
def isNone (o : COption) : Bool := !o.isSome

/-- `Option.ts` `expect(msg)`: throws `new Error(msg)` on `None`, otherwise
returns a deep copy of the value (copy elided: value semantics). -/
def expect (o : COption) (msg : String) : Except JSErr JSVal :=
  if o.isNone then .error (.jsError msg) else .ok o.data

/-- `Option.ts` lines 63–69: `unwrap()` throws
`TypeError("called \x60Option::unwrap()\x60 on a \x60None\x60 value")` on
`None`, otherwise returns `this.data` (the stored value itself, no copy). -/
def unwrap (o : COption) : Except JSErr JSVal :=
  if o.isNone then .error (.typeError "called `Option::unwrap()` on a `None` value")
  else .ok o.data

/-- `Option.ts` lines 202–206: `replace(value)` saves `old = this.clone()`,
assigns `this.data = value`, and returns `Some(old)`.  The pair is
(receiver state afterwards, returned value); `Some(old)` throws when the
receiver was `None` (its clone is `null`). -/
def replace (o : COption) (v : JSVal) : COption × Except JSErr COption :=
  (⟨v⟩, Some o.data)

/-- `Option.ts` lines 270–278: `flatten()` returns `None()` when `isNone()`,
the inner instance when `this.data instanceof Option`, and `Some(this.data)`
otherwise (`Some` cannot throw there: the data is truthy, hence not the
sentinel). -/
def flatten (o : COption) : COption :=
  if o.isNone then None
  else
    match o.data with
    | .voption d => ⟨d⟩
    | d => ⟨d⟩

end COption

namespace CResult

/-- `new Ok(x)` (`src/Result/Result.ts`). -/
def Ok (x : JSVal) : CResult := ⟨true, x⟩

/-- `new Err(e)` (`src/Result/Result.ts`). -/
def Err (e : JSVal) : CResult := ⟨false, e⟩

/-- Embed a `Result` instance back into the value domain. -/
def toVal (r : CResult) : JSVal := .vresult r.tag r.content

/-- `Result.ts`: `isOk()` returns `this.type === "ok"`. -/
def isOk (r : CResult) : Bool := r.tag

/-- `Result.ts`: `isErr()` returns `this.type === "err"`. -/
def isErr (r : CResult) : Bool := !r.tag

/-- `Result.ts` lines 113–122: `unwrap()` calls
`unwrapFailed("called \x60Result::unwrap()\x60 on a \x60Error\x60 value", this.error)`
on an `Err`, otherwise returns `this.data`. -/
def unwrap (r : CResult) : Except JSErr JSVal :=
  if r.isErr then
    .error (.jsErrorWith "called `Result::unwrap()` on a `Error` value" r.content)
  else .ok r.content

/-- `Result.ts` lines 324–340: `transpose()`.  `Err(e)` maps to
`Some(new Err(cloneErr()))`; an `Ok` holding an `Option` dispatches on that
option's `isSome()` (which is `Boolean(data)` in `Option.ts`), returning
`Some(new Ok(innerValue))` or `None()`; an `Ok` holding anything else calls
`unwrapFailed`.  Deep copies are elided (value semantics). -/
def transpose (r : CResult) : Except JSErr COption :=
  if r.isErr then COption.Some (.vresult false r.content)
  else
    match r.content with
    | .voption d =>
        if truthy d then do
          let innerValue ← COption.unwrap ⟨d⟩
          COption.Some (.vresult true innerValue)
        else .ok COption.None
    | c =>
        .error (.jsErrorWith
          "called `Result::transpose()` on an `Ok` value where `self` is not an `Option`" c)

end CResult

/-- `Option.ts` lines 238–255: `transpose()`.  `None` maps to `Ok(None())`;
a `Some` holding a `Result` dispatches on `isOk()`: the `Ok` branch returns
`Ok(Some(this.data.unwrap()))`, while the `Err` branch also calls
`this.data.unwrap()` (the source uses `unwrap`, not `unwrapErr`) before
returning `Err(innerError)`; a `Some` holding anything else calls
`unwrapFailed`. -/
def COption.transpose (o : COption) : Except JSErr CResult :=
  if o.isNone then .ok (CResult.Ok COption.None.toVal)
  else
    match o.data with
    | .vresult true x => do
        let innerValue ← CResult.unwrap ⟨true, x⟩
        let s ← COption.Some innerValue
        .ok (CResult.Ok s.toVal)
    | .vresult false e => do
        let innerError ← CResult.unwrap ⟨false, e⟩
        .ok (CResult.Err innerError)
    | d =>
        .error (.jsErrorWith
          "called `Option::transpose()` on an `Some` value where `self` is not an `Result`" d)

/-- The `_Some` / `_None` class pair at the top of `src/Option/option.ts`:
a genuine two-class sum (no sentinel encoding). -/
inductive BOption : Type where
  | bsome (data : JSVal)
  | bnone
deriving DecidableEq, Repr

namespace BOption

/-- The `Some` factory of `src/Option/option.ts` (lines 17–23): throws
`TypeError("Error.")` on `undefined`/`null`, otherwise `new _Some(x)`. -/
def Some (x : JSVal) : Except JSErr BOption :=
  match x with
  | .vundef => .error (.typeError "Error.")
  | .vnull => .error (.typeError "Error.")
  | x => .ok (.bsome x)

/-- `_Some.unwrap` returns the value; `_None.unwrap` (lines 171–173) throws
`TypeError("called \x60Option::unwrap()\x60 on a \x60None\x60 value")`. -/
def unwrap : BOption → Except JSErr JSVal
  | .bsome d => .ok d
  | .bnone => .error (.typeError "called `Option::unwrap()` on a `None` value")

/-- `_Some.expect` returns the value; `_None.expect` throws `new Error(msg)`. -/
def expect : BOption → String → Except JSErr JSVal
  | .bsome d, _ => .ok d
  | .bnone, msg => .error (.jsError msg)

end BOption

/-- Deep copy (`clone-deep`): produces a structurally equal value, hence the
identity in this value-semantics embedding. -/
def cloneD {α : Type} (x : α) : α := x

/-- `toClone` from `src/Option/option.ts` / `src/unnamed/part_011`:
precompose a function with a deep copy of its argument. -/
def toClone {α β : Type} (f : α → β) : α → β := fun x => f (cloneD x)

/-- Closure-based `Option` (bottom of `src/Option/option.ts`), embedded as the
initial algebra of its Church-encoded `maybe` eliminator: `mkSome x` is
`some x`, `mkNone` is `none` (`mkSome` performs no sentinel check). -/
inductive FOption (α : Type) : Type where
  | some (x : α)
  | none
deriving DecidableEq, Repr

/-- `Sum`-based `Result` (first implementation in `src/unnamed/part_011`),
embedded as the initial algebra of its `either` eliminator: `mkOk x` wraps
`Right x`, `mkErr e` wraps `Left e`. -/
inductive FResult (α ε : Type) : Type where
  | ok (x : α)
  | err (e : ε)
deriving DecidableEq, Repr

namespace FOption

/-- The private `maybe` eliminator: argument order is (ifNone, ifSome). -/
def maybe : FOption α → (Unit → A) → (α → A) → A
  | .some x, _, ifSome => ifSome x
  | .none, ifNone, _ => ifNone ()

/-- `isSome = this.maybe(() => false, _ => true)`. -/
def isSome (o : FOption α) : Bool := o.maybe (fun _ => false) (fun _ => true)

/-- `andThen = f => this.maybe(None, x => f(clone(x)))` (option.ts 443–444). -/
def andThen (o : FOption α) (f : α → FOption β) : FOption β :=
  o.maybe (fun _ => .none) (fun x => f (cloneD x))

/-- `map = f => this.andThen(x => Some(f(clone(x))))`. -/
def map (o : FOption α) (f : α → β) : FOption β :=
  o.andThen (fun x => .some (f (cloneD x)))

/-- `mapOr = (ifNone, f) => this.maybe(() => ifNone, toClone(f))`. -/
def mapOr (o : FOption α) (ifNone : β) (f : α → β) : β :=
  o.maybe (fun _ => ifNone) (toClone f)

/-- `mapOrElse = (ifNone, f) => this.maybe(ifNone, toClone(f))`. -/
def mapOrElse (o : FOption α) (ifNone : Unit → β) (f : α → β) : β :=
  o.maybe ifNone (toClone f)

/-- `replace = on => this.map(_ => on)` (option.ts line 477). -/
def replace (o : FOption α) (onv : α) : FOption α := o.map (fun _ => onv)

/-- Free function `flatten = x => x.andThen(y => y)` (option.ts 554–555). -/
def flatten (x : FOption (FOption α)) : FOption α := x.andThen (fun y => y)

end FOption

namespace FResult

/-- The `either` eliminator: argument order is (ifErr, ifOk). -/
def either : FResult α ε → (ε → A) → (α → A) → A
  | .ok x, _, ifOk => ifOk x
  | .err e, ifErr, _ => ifErr e

/-- `isOk = this.either(_ => false, _ => true)`. -/
def isOk (r : FResult α ε) : Bool := r.either (fun _ => false) (fun _ => true)

/-- `andThen = f => this.either(err => Err(err), ok => f(clone(ok)))`
(part_011 lines 125–127). -/
def andThen (r : FResult α ε) (f : α → FResult β ε) : FResult β ε :=
  r.either (fun e => .err e) (fun x => f (cloneD x))

/-- `map = f => this.andThen(x => Ok(f(clone(x))))`. -/
def map (r : FResult α ε) (f : α → β) : FResult β ε :=
  r.andThen (fun x => .ok (f (cloneD x)))

/-- `mapOr = (ifErr, f) => this.either(_ => ifErr, toClone(f))`. -/
def mapOr (r : FResult α ε) (ifErr : β) (f : α → β) : β :=
  r.either (fun _ => ifErr) (toClone f)

/-- `mapOrElse = (ifErr, ifOk) => this.either(toClone(ifErr), toClone(ifOk))`. -/
def mapOrElse (r : FResult α ε) (ifErr : ε → β) (ifOk : α → β) : β :=
  r.either (toClone ifErr) (toClone ifOk)

/-- `replace = on => this.map(_ => on)` (part_011 lines 102–104). -/
def replace (r : FResult α ε) (onv : β) : FResult β ε := r.map (fun _ => onv)

/-- Static `Result.transpose` (part_011 lines 131–136):
`x.either(err => Some(Err(err)), ok => ok.mapOr(None(), val => Some(Ok(val))))`. -/
def transpose (x : FResult (FOption α) ε) : FOption (FResult α ε) :=
  x.either (fun e => .some (.err e)) (fun o => o.mapOr .none (fun v => .some (.ok v)))

end FResult

/-- Free function `transpose` for the closure-based `Option`
(option.ts lines 531–538):
`x.mapOrElse(() => Ok(None()), r => r.mapOrElse(err => Err(err), ok => Ok(Some(ok))))`. -/
def FOption.transpose (x : FOption (FResult α ε)) : FResult (FOption α) ε :=
  x.mapOrElse (fun _ => .ok .none)
    (fun r => r.mapOrElse (fun e => .err e) (fun v => .ok (.some v)))

/-- `match` of the `Result` implementation with *optional* handlers
(`src/unnamed/part_011` lines 233–240; same `type`/`data`/`error` layout as
`CResult`).  An absent handler for the active variant yields `null`; deep
copies of the payload are elided (value semantics).  Named `matchOpt` because
`match` is reserved in Lean. -/
def CResult.matchOpt (r : CResult) (okH errH : Option (JSVal → JSVal)) : JSVal :=
  if r.isErr then
    match errH with
    | Option.some f => f r.content
    | Option.none => .vnull
  else
    match okH with
    | Option.some f => f r.content
    | Option.none => .vnull

/-- Reference-semantics model for the defensive-copy contract: a compound host
value is a single mutable cell in a store, identified by its address.  Two
expressions alias exactly when they carry the same address. -/
abbrev Store := List Int

/-- A reference to a heap cell. -/
structure HRef where
  addr : Nat
deriving DecidableEq, Repr

/-- Read the cell a reference points to. -/
def readCell (s : Store) (r : HRef) : Int := (s[r.addr]?).getD 0

/-- Mutate the cell a reference points to. -/
def writeCell (s : Store) (r : HRef) (v : Int) : Store := s.set r.addr v

/-- `clone-deep` under reference semantics: allocate a fresh cell holding a
copy of the referenced content and return the fresh reference. -/
def cloneDeep (s : Store) (r : HRef) : Store × HRef :=
  (s ++ [readCell s r], ⟨s.length⟩)

/-- `Option.ts` `unwrap` on a `Some` (line 68) returns `this.data` itself:
the caller receives the stored reference, not a copy. -/
def unwrapClassRef (r : HRef) : HRef := r

/-- Closure-based `unwrap` (option.ts lines 332–334) returns `clone(x)`:
the caller receives a fresh deep copy of the stored value. -/
def unwrapCloneRef (s : Store) (r : HRef) : Store × HRef := cloneDeep s r

/-- `Result.ts` `map` (lines 203–207) computes `new Ok(fn(this.data))`: the
caller-supplied function receives the stored reference, not a copy. -/
def mapArgRef (r : HRef) : HRef := r

/-- C1: the claim states that for every non-sentinel `x`, `Some(x)` succeeds
and the result satisfies `isSome() === true` and `isNone() === false`.
`Some(0)` indeed succeeds (`0` is not the null/undefined sentinel), but
`isSome()` is `Boolean(this.data)` and `Boolean(0)` is `false`, so the
constructed option reports `isSome() = false` and `isNone() = true` —
contradicting both the claim and the method's own documentation.  (The
opposite-booleans part of the claim does hold: `isNone` is literally the
negation of `isSome`.) -/
theorem c1_some_zero_breaks_isSome :
    COption.Some (.vnum 0) = Except.ok ⟨.vnum 0⟩ ∧
    COption.isSome ⟨.vnum 0⟩ = false ∧
    COption.isNone ⟨.vnum 0⟩ = true ∧
    (∀ o : COption, o.isNone = !o.isSome) :=
  ⟨rfl, rfl, rfl, fun _ => rfl⟩

/-- C2: the claim states that `Some(Err(e)).transpose()` returns `Err(e)`
normally.  In the code (`Option.ts` lines 238–255) the `Err` branch computes
`const innerError = this.data.unwrap()` — `unwrap`, not `unwrapErr` — and
`Result.unwrap()` on an `Err` throws, so `Some(Err("e")).transpose()` raises
instead of returning. -/
theorem c2_transpose_some_err_raises :
    COption.transpose ⟨.vresult false (.vstr "e")⟩ =
      Except.error
        (.jsErrorWith "called `Result::unwrap()` on a `Error` value" (.vstr "e")) :=
  rfl

/-- C3: for the functional implementations (the static `Result.transpose` of
`src/unnamed/part_011` and the free `transpose` of `src/Option/option.ts`),
composing `Result.transpose` then `Option.transpose` is the identity on every
`Result<Option<T>, E>`: `Err(e)`, `Ok(None())` and `Ok(Some(v))` all map back
to themselves. -/
theorem c3_transpose_isomorphism {α ε : Type} (x : FResult (FOption α) ε) :
    FOption.transpose (FResult.transpose x) = x := by
  cases x with
  | err e => rfl
  | ok o => cases o <;> rfl

/-- C4: `andThen` satisfies the three monad laws for both the closure-based
`Option` (`src/Option/option.ts` lines 443–444) and the `Sum`-based `Result`
(`src/unnamed/part_011` lines 125–127): right identity, left identity and
associativity. -/
theorem c4_andThen_monad_laws {α β γ ε : Type}
    (x : FOption α) (v : α) (f : α → FOption β) (g : β → FOption γ)
    (r : FResult α ε) (rf : α → FResult β ε) (rg : β → FResult γ ε) :
    x.andThen FOption.some = x ∧
    (FOption.some v).andThen f = f v ∧
    x.andThen (fun y => (f y).andThen g) = (x.andThen f).andThen g ∧
    r.andThen FResult.ok = r ∧
    (FResult.ok v : FResult α ε).andThen rf = rf v ∧
    r.andThen (fun y => (rf y).andThen rg) = (r.andThen rf).andThen rg := by
  refine ⟨?_, rfl, ?_, ?_, rfl, ?_⟩
  · cases x <;> rfl
  · cases x <;> rfl
  · cases r <;> rfl
  · cases r <;> rfl

/-- C5 counterexample: the claim, as stated, is false on the cited code.  In
the closure-based implementation (`src/Option/option.ts` line 477)
`Some(1).replace(2)` returns `Some(2)` — an option holding the *new* value,
not the previous value `1` — and in the class-based implementation
(`Option.ts` lines 202–206) `None().replace(5)` does not return `None()`:
it sets the receiver's slot to `5` and throws `TypeError("Error.")` from
constructing `Some(null)`. -/
theorem c5_replace_counterexample :
    FOption.replace (.some (1 : Int)) 2 = .some 2 ∧
    FOption.some (2 : Int) ≠ .some 1 ∧
    COption.replace COption.None (.vnum 5) =
      (⟨.vnum 5⟩, Except.error (.typeError "Error.")) :=
  ⟨rfl, by decide, rfl⟩

/-- C5 (amended): in the class-based `Option` (`Option.ts` lines 202–206),
`Some(x).replace(v)` returns an option holding the previous value `x` and the
receiver afterwards holds `v`, but `None().replace(v)` sets the receiver's
slot to `v` and throws `TypeError("Error.")` (from constructing `Some(null)`)
instead of returning `None()`; in the closure-based `Option`
(`src/Option/option.ts` line 477), `replace(v)` never mutates the receiver and
returns `Some(v)` on a `Some` and `None()` on a `None`. -/
theorem c5_replace_amended (x v : JSVal)
    (hn : x ≠ .vnull) (hu : x ≠ .vundef) :
    COption.replace ⟨x⟩ v = (⟨v⟩, Except.ok ⟨x⟩) ∧
    COption.replace COption.None v = (⟨v⟩, Except.error (.typeError "Error.")) ∧
    (∀ {α : Type} (a b : α),
      FOption.replace (.some a) b = .some b ∧
      FOption.replace (.none : FOption α) b = .none) := by
  refine ⟨?_, rfl, ?_⟩
  · show ((⟨v⟩ : COption), COption.Some x) = ((⟨v⟩ : COption), Except.ok (⟨x⟩ : COption))
    cases x <;> first
      | rfl
      | exact absurd rfl hn
      | exact absurd rfl hu
  · intro α a b
    exact ⟨rfl, rfl⟩

/-- C5 witness: the amended claim instantiated at `Some(1).replace(2)`. -/
theorem c5_replace_amended_witness :
    (JSVal.vnum 1 ≠ .vnull) ∧
    COption.replace ⟨.vnum 1⟩ (.vnum 2) = (⟨.vnum 2⟩, Except.ok ⟨.vnum 1⟩) :=
  ⟨by decide, (c5_replace_amended (.vnum 1) (.vnum 2) (by decide) (by decide)).1⟩

/-- C6: the claim states `Result.transpose(Ok(Some(x))) = Some(Ok(x))` for
every `x`.  In the class-based code (`Result.ts` lines 324–340) the `Ok`
branch dispatches on the inner option's `isSome()`, which is
`Boolean(this.data)`, so for the falsy value `0` the code returns `None()`
instead of `Some(Ok(0))` — contradicting the method's own documentation and
the property tests of the functional implementation. -/
theorem c6_transpose_ok_some_zero_gives_none :
    CResult.transpose ⟨true, .voption (.vnum 0)⟩ = Except.ok COption.None :=
  rfl

/-- C7: `None().unwrap()` always raises
`TypeError("called \x60Option::unwrap()\x60 on a \x60None\x60 value")` — a
different kind from the `new Error(msg)` raised by `expect` — in both the
class-based `Option.ts` and the `_None` class of `src/Option/option.ts`; and
`Some(null)` / `Some(undefined)` always raise the construction error
`TypeError("Error.")`.  None of these calls returns normally. -/
theorem c7_unwrap_and_construction_errors :
    COption.unwrap COption.None =
      Except.error (.typeError "called `Option::unwrap()` on a `None` value") ∧
    BOption.unwrap .bnone =
      Except.error (.typeError "called `Option::unwrap()` on a `None` value") ∧
    (∀ msg : String,
      COption.expect COption.None msg = Except.error (.jsError msg)) ∧
    (∀ m m' : String, JSErr.typeError m ≠ JSErr.jsError m') ∧
    COption.Some .vnull = Except.error (.typeError "Error.") ∧
    COption.Some .vundef = Except.error (.typeError "Error.") ∧
    BOption.Some .vnull = Except.error (.typeError "Error.") ∧
    BOption.Some .vundef = Except.error (.typeError "Error.") :=
  ⟨rfl, rfl, fun _ => rfl, fun _ _ h => JSErr.noConfusion h, rfl, rfl, rfl, rfl⟩

/-- C8: the claim states `flatten(Some(x)) == Some(x)` for every `x` that is
not itself an `Option`.  In the class-based code (`Option.ts` lines 270–278)
`flatten` first tests `isNone()`, which is `!Boolean(this.data)`, so for the
falsy non-option value `0` it returns `None()` instead of `Some(0)`. -/
theorem c8_flatten_some_zero_gives_none :
    COption.flatten ⟨.vnum 0⟩ = COption.None :=
  rfl

/-- C9 counterexample: the claim states that mutating a value obtained from a
combinator never changes the value still stored in the wrapper.  The
class-based `unwrap` (`Option.ts` line 68) returns the stored reference
itself: starting from a store holding `42` at the wrapper's address `0`,
writing `99` through the reference obtained from `unwrap` makes the wrapper's
stored value read `99` — the wrapped original was corrupted. -/
theorem c9_unwrap_alias_counterexample :
    readCell [42] ⟨0⟩ = 42 ∧
    unwrapClassRef ⟨0⟩ = (⟨0⟩ : HRef) ∧
    readCell (writeCell [42] (unwrapClassRef ⟨0⟩) 99) ⟨0⟩ = 99 :=
  ⟨rfl, rfl, rfl⟩

/-- C9 (amended): the closure-based implementation
(`src/Option/option.ts` lines 332–334) deep-copies on read — `unwrap` returns
a fresh reference with equal content, and mutating the copy leaves the stored
value unchanged — but the class-based `Option.unwrap` (`Option.ts` lines
63–69) and `Result.map` (`Result.ts` lines 203–207) hand the stored reference
itself to the caller, so mutating the value obtained from them does change the
value still stored in the wrapper. -/
theorem c9_amended_copy_semantics (s : Store) (r : HRef) (v : Int)
    (h : r.addr < s.length) :
    (unwrapCloneRef s r).2.addr ≠ r.addr ∧
    readCell (unwrapCloneRef s r).1 (unwrapCloneRef s r).2 = readCell s r ∧
    readCell (writeCell (unwrapCloneRef s r).1 (unwrapCloneRef s r).2 v) r
      = readCell s r ∧
    readCell (writeCell s (unwrapClassRef r) v) r = v ∧
    mapArgRef r = r := by
  refine ⟨(ne_of_lt h).symm, ?_, ?_, ?_, rfl⟩
  · simp [unwrapCloneRef, cloneDeep, readCell,
      List.getElem?_append_right (Nat.le_refl s.length)]
  · simp [unwrapCloneRef, cloneDeep, readCell, writeCell,
      List.getElem?_set_ne ((ne_of_lt h).symm), List.getElem?_append_left h]
  · simp [unwrapClassRef, readCell, writeCell, List.getElem?_set_eq_of_lt v h]

/-- C9 witness: the amended claim instantiated at a one-cell store holding
`42`, with the wrapper's reference at address `0` and the mutation writing
`99`. -/
theorem c9_amended_witness :
    (HRef.mk 0).addr < ([42] : Store).length ∧
    ((unwrapCloneRef [42] ⟨0⟩).2.addr ≠ (HRef.mk 0).addr ∧
     readCell (unwrapCloneRef [42] ⟨0⟩).1 (unwrapCloneRef [42] ⟨0⟩).2
       = readCell [42] ⟨0⟩ ∧
     readCell (writeCell (unwrapCloneRef [42] ⟨0⟩).1 (unwrapCloneRef [42] ⟨0⟩).2 99) ⟨0⟩
       = readCell [42] ⟨0⟩ ∧
     readCell (writeCell [42] (unwrapClassRef ⟨0⟩) 99) ⟨0⟩ = 99 ∧
     mapArgRef ⟨0⟩ = (⟨0⟩ : HRef)) :=
  ⟨by decide, c9_amended_copy_semantics [42] ⟨0⟩ 99 (by decide)⟩

/-- C10: in the `Result` implementation whose `match` takes optional handlers
(`src/unnamed/part_011` lines 233–240), `match` on an `Ok` with the `ok`
handler omitted returns `null`, and `match` on an `Err` with the `err` handler
omitted returns `null`; no error is raised in either case. -/
theorem c10_match_optional_handlers (v e : JSVal)
    (okH errH : Option (JSVal → JSVal)) :
    CResult.matchOpt ⟨true, v⟩ Option.none errH = .vnull ∧
    CResult.matchOpt ⟨false, e⟩ okH Option.none = .vnull :=
  ⟨rfl, rfl⟩

end Rustype
